import Mathlib

/-!
Shallow embedding of the API normalization layer of a movie discovery
front-end.  Each operation issues one HTTP GET against the TMDB REST API,
checks the status, parses the JSON body, maps upstream fields to a local
shape, and on any failure either returns a fallback value or (for the
movie-detail operation only) rethrows.

The nondeterministic upstream interaction is a parameter of each embedded
operation: an `UpstreamOutcome α` is either an exception thrown by `fetch`
itself, or a response carrying the HTTP success flag `ok` and a body that
parses to a value of the declared upstream shape `α` (or fails to parse,
modelling malformed JSON / a field-access exception, as `none`).

Numeric JSON fields (`vote_average`, ratings) are modelled as `Rat`; the
code never performs arithmetic on them, only verbatim copies.  Integer
`id` fields are modelled as `Nat` (TMDB ids are non-negative integers).
-/

/-- Upstream shape of one movie summary (interface `TMDBMovie`):
`id : number`, `title : string`, `poster_path : string`,
`vote_average : number`. -/
structure TMDBMovie where
  id : Nat
  title : String
  poster_path : String
  vote_average : Rat
deriving DecidableEq

/-- Upstream shape of a paginated movie list (interface `TMDBResponse`). -/
structure TMDBResponse where
  results : List TMDBMovie
deriving DecidableEq

/-- Local movie summary shape (interface `Movie`). -/
structure Movie where
  id : String
  title : String
  image : String
  rating : Rat
deriving DecidableEq

/-- Genre entry: `id : number`, `name : string`. -/
structure Genre where
  id : Nat
  name : String
deriving DecidableEq

/-- Spoken-language entry: `english_name`, `iso_639_1`, `name`. -/
structure SpokenLanguage where
  english_name : String
  iso_639_1 : String
  name : String
deriving DecidableEq

/-- Upstream shape of a single movie object (interface `TMDBMovieDetail`). -/
structure TMDBMovieDetail where
  id : Nat
  title : String
  poster_path : String
  vote_average : Rat
  overview : String
  release_date : String
  runtime : Nat
  genres : List Genre
  spoken_languages : List SpokenLanguage
deriving DecidableEq

/-- Local movie detail shape (interface `MovieDetail`). -/
structure MovieDetail where
  id : String
  title : String
  image : String
  rating : Rat
  overview : String
  releaseDate : String
  runtime : Nat
  genres : List Genre
  spoken_languages : List SpokenLanguage
deriving DecidableEq

/-- Cast member shape (interface `Cast`).  Note: in the source this single
interface is used both as the element type of the upstream credits
response (`TMDBMovieCast.cast : Cast[]`) and as the local output type, and
it declares `id : string`. -/
structure Cast where
  id : String
  profile_path : String
  name : String
  character : String
  known_for_department : String
deriving DecidableEq

/-- Upstream shape of the credits response (interface `TMDBMovieCast`):
an object with a `cast` list whose declared element type is `Cast`. -/
structure TMDBMovieCast where
  cast : List Cast
deriving DecidableEq

/-- One entry of the upstream videos list (the element type of
`TMDBMovieTrailer.results`): `key : string`, `site : string`. -/
structure TrailerEntry where
  key : String
  site : String
deriving DecidableEq

/-- Upstream shape of the videos response (interface `TMDBMovieTrailer`). -/
structure TMDBMovieTrailer where
  results : List TrailerEntry
deriving DecidableEq

/-- Nested `author_details` object of an upstream review:
`rating : number | null`, `avatar_path : string | null`. -/
structure AuthorDetails where
  rating : Option Rat
  avatar_path : Option String
deriving DecidableEq

/-- Upstream review shape (interface `TMDBReview`).  The interface declares
`author_details` as required, but the mapping code accesses it with the
optional-chaining operator `?.`, so its absence at runtime is
representable and is modelled with `Option`. -/
structure TMDBReview where
  id : String
  author : String
  content : String
  created_at : String
  url : String
  author_details : Option AuthorDetails
deriving DecidableEq

/-- Upstream shape of the reviews response: an object with a `results`
list of reviews (the source accesses `data.results` untyped and maps each
element as a `TMDBReview`). -/
structure TMDBReviewResponse where
  results : List TMDBReview
deriving DecidableEq

/-- Local review shape (interface `Review`). -/
structure Review where
  id : String
  author : String
  content : String
  created_at : String
  url : String
  rating : Option Rat
  avatar_path : Option String
deriving DecidableEq

/-! ### JavaScript primitive semantics used by the mapping code -/

/-- Decimal digit character: `digitChar d` is the character for `d % 10`. -/
def digitChar (d : Nat) : Char := Char.ofNat (48 + d % 10)

/-- Fuel-driven accumulator loop producing the decimal digits of `n`,
most significant first, in front of `acc`. -/
def natToCharsAux : Nat → Nat → List Char → List Char
  | 0, _, acc => acc
  | fuel + 1, n, acc =>
    if n < 10 then digitChar n :: acc
    else natToCharsAux fuel (n / 10) (digitChar (n % 10) :: acc)

/-- Decimal digit list of a natural number, most significant first
(`n + 1` units of fuel always suffice, since `n` has at most `n + 1`
decimal digits). -/
def natToChars (n : Nat) : List Char := natToCharsAux (n + 1) n []

/-- JavaScript `Number.prototype.toString()` (radix 10) on a non-negative
integer value: its decimal rendering. -/
def jsNumberToString (n : Nat) : String := String.mk (natToChars n)

/-- JavaScript `String.prototype.toString()` on a string value: the
identity. -/
def jsStringToString (s : String) : String := s

/-- Uppercase hexadecimal digit character for `n < 16`. -/
def hexDigitChar (n : Nat) : Char :=
  if n < 10 then Char.ofNat (48 + n) else Char.ofNat (55 + n)

/-- Percent-encoding of one byte: `%` followed by two uppercase hex
digits. -/
def percentEncodeByte (b : Nat) : List Char :=
  ['%', hexDigitChar (b % 256 / 16), hexDigitChar (b % 16)]

/-- The characters JavaScript `encodeURIComponent` leaves unescaped:
`A–Z a–z 0–9 - _ . ! ~ * ' ( )`. -/
def isURIUnescaped (c : Char) : Bool :=
  (65 ≤ c.toNat && c.toNat ≤ 90) || (97 ≤ c.toNat && c.toNat ≤ 122) ||
  (48 ≤ c.toNat && c.toNat ≤ 57) ||
  c = '-' || c = '_' || c = '.' || c = '!' || c = '~' || c = '*' ||
  c.toNat = 39 || c = '(' || c = ')'

/-- Encoding of one character: kept verbatim when unescaped, otherwise
each byte of its UTF-8 encoding is percent-encoded. -/
def encodeChar (c : Char) : List Char :=
  if isURIUnescaped c then [c]
  else (String.utf8EncodeChar c).foldr (fun b acc => percentEncodeByte b.toNat ++ acc) []

/-- JavaScript `encodeURIComponent`. -/
def encodeURIComponent (s : String) : String :=
  String.mk (s.data.foldr (fun c acc => encodeChar c ++ acc) [])

/-! ### Upstream interaction model -/

/-- Error thrown inside an operation's `try` block. -/
inductive FetchError where
  /-- The `fetch` call itself threw (network failure and the like). -/
  | networkError
  /-- The synthetic `Error` thrown on a non-success HTTP status, with its
  message. -/
  | statusError (msg : String)
  /-- An exception from `res.json()` or from field access on a malformed
  body. -/
  | parseError
deriving DecidableEq

/-- Outcome of one outbound HTTP GET, as seen by the mapping code. -/
inductive UpstreamOutcome (α : Type) where
  /-- The `fetch` call threw before producing a response. -/
  | exn
  /-- A response arrived: `ok` is the HTTP success flag (`res.ok`), and
  `body` is `some` of the parsed upstream shape, or `none` when the JSON
  body is malformed or does not have the expected shape. -/
  | response (ok : Bool) (body : Option α)
deriving DecidableEq

/-- A failing upstream interaction: the fetch threw, the status was
non-success, or the body failed to parse. -/
def upstreamFails : UpstreamOutcome α → Bool
  | .exn => true
  | .response ok body => !ok || body.isNone

/-! ### Field mappings (one per local shape) -/

/-- Fixed CDN base used for every image URL. -/
def imageCDNBase : String := "https://image.tmdb.org/t/p/w500"

/-- Mapping of one upstream movie summary to the local `Movie` shape, as
written identically in `fetchMoviesRecommendation`, `fetchTrendingMovies`
and `searchMovies`. -/
def movieToLocal (m : TMDBMovie) : Movie :=
  { id := jsNumberToString m.id
    title := m.title
    image := imageCDNBase ++ m.poster_path
    rating := m.vote_average }

/-- Mapping of the upstream movie object to the local `MovieDetail`
shape, from `fetchMovieDetail`. -/
def movieDetailToLocal (d : TMDBMovieDetail) : MovieDetail :=
  { id := jsNumberToString d.id
    title := d.title
    image := imageCDNBase ++ d.poster_path
    rating := d.vote_average
    overview := d.overview
    releaseDate := d.release_date
    runtime := d.runtime
    genres := d.genres
    spoken_languages := d.spoken_languages }

/-- Mapping of one upstream cast entry, from `fetchMovieCredits`.  The
source writes `id: cast.id.toString()`; since the declared element type
gives `cast.id : string`, `toString()` is the string identity. -/
def castToLocal (c : Cast) : Cast :=
  { id := jsStringToString c.id
    profile_path := c.profile_path
    name := c.name
    character := c.character
    known_for_department := c.known_for_department }

/-- Mapping of one upstream review, from `fetchMovieReviews`:
`rating: review.author_details?.rating ?? null` and likewise for
`avatar_path`. -/
def reviewToLocal (r : TMDBReview) : Review :=
  { id := r.id
    author := r.author
    content := r.content
    created_at := r.created_at
    url := r.url
    rating := r.author_details.bind (fun d => d.rating)
    avatar_path := r.author_details.bind (fun d => d.avatar_path) }

/-! ### The seven operations

Each operation is split into its `try` block (returning
`Except FetchError _`) and the full function, whose `catch` clause logs
and substitutes the fallback value — or, for `fetchMovieDetail` only,
rethrows.  Request URLs are embedded separately since the response
processing does not depend on them. -/

/-- Body of the `try` block of `fetchMoviesRecommendation`. -/
def tryFetchMoviesRecommendation (u : UpstreamOutcome TMDBResponse) :
    Except FetchError (List Movie) :=
  match u with
  | .exn => .error .networkError
  | .response ok body =>
    if !ok then .error (.statusError "Failed to fetch movies recommendation")
    else
      match body with
      | none => .error .parseError
      | some data => .ok (data.results.map movieToLocal)

/-- `fetchMoviesRecommendation`: on any thrown error, logs and returns
`[]`. -/
def fetchMoviesRecommendation (u : UpstreamOutcome TMDBResponse) : List Movie :=
  match tryFetchMoviesRecommendation u with
  | .ok v => v
  | .error _ => []

/-- Request URL of `fetchMoviesRecommendation`. -/
def fetchMoviesRecommendationURL (movieId : String) : String :=
  "https://api.themoviedb.org/3/movie/" ++ movieId ++ "/recommendations"

/-- Body of the `try` block of `fetchTrendingMovies`. -/
def tryFetchTrendingMovies (u : UpstreamOutcome TMDBResponse) :
    Except FetchError (List Movie) :=
  match u with
  | .exn => .error .networkError
  | .response ok body =>
    if !ok then .error (.statusError "Failed to fetch trending movies")
    else
      match body with
      | none => .error .parseError
      | some data => .ok (data.results.map movieToLocal)

/-- `fetchTrendingMovies`: on any thrown error, logs and returns `[]`. -/
def fetchTrendingMovies (u : UpstreamOutcome TMDBResponse) : List Movie :=
  match tryFetchTrendingMovies u with
  | .ok v => v
  | .error _ => []

/-- Request URL of `fetchTrendingMovies`. -/
def fetchTrendingMoviesURL : String :=
  "https://api.themoviedb.org/3/trending/movie/week"

/-- Body of the `try` block of `fetchMovieDetail`. -/
def tryFetchMovieDetail (u : UpstreamOutcome TMDBMovieDetail) :
    Except FetchError MovieDetail :=
  match u with
  | .exn => .error .networkError
  | .response ok body =>
    if !ok then .error (.statusError "Failed to fetch movie detail")
    else
      match body with
      | none => .error .parseError
      | some data => .ok (movieDetailToLocal data)

/-- `fetchMovieDetail`: the `catch` clause logs and rethrows the same
error (`throw error`), so the result is the `try` block's result. -/
def fetchMovieDetail (u : UpstreamOutcome TMDBMovieDetail) :
    Except FetchError MovieDetail :=
  match tryFetchMovieDetail u with
  | .ok v => .ok v
  | .error e => .error e

/-- Request URL of `fetchMovieDetail`. -/
def fetchMovieDetailURL (movieId : String) : String :=
  "https://api.themoviedb.org/3/movie/" ++ movieId

/-- Body of the `try` block of `fetchMovieCredits`. -/
def tryFetchMovieCredits (u : UpstreamOutcome TMDBMovieCast) :
    Except FetchError (List Cast) :=
  match u with
  | .exn => .error .networkError
  | .response ok body =>
    if !ok then .error (.statusError "Failed to fetch movie credits")
    else
      match body with
      | none => .error .parseError
      | some data => .ok (data.cast.map castToLocal)

/-- `fetchMovieCredits`: on any thrown error, logs and returns `[]`. -/
def fetchMovieCredits (u : UpstreamOutcome TMDBMovieCast) : List Cast :=
  match tryFetchMovieCredits u with
  | .ok v => v
  | .error _ => []

/-- Request URL of `fetchMovieCredits`. -/
def fetchMovieCreditsURL (movieId : String) : String :=
  "https://api.themoviedb.org/3/movie/" ++ movieId ++ "/credits"

/-- Body of the `try` block of `fetchMovieTrailer`.  The source returns
`data.results[0] || null`; a present list element is an object, hence
truthy, so this is the first element when the list is non-empty and
`null` otherwise. -/
def tryFetchMovieTrailer (u : UpstreamOutcome TMDBMovieTrailer) :
    Except FetchError (Option TrailerEntry) :=
  match u with
  | .exn => .error .networkError
  | .response ok body =>
    if !ok then .error (.statusError "Failed to fetch movie trailer")
    else
      match body with
      | none => .error .parseError
      | some data => .ok data.results.head?

/-- `fetchMovieTrailer`: on any thrown error, logs and returns `null`. -/
def fetchMovieTrailer (u : UpstreamOutcome TMDBMovieTrailer) : Option TrailerEntry :=
  match tryFetchMovieTrailer u with
  | .ok v => v
  | .error _ => none

/-- Request URL of `fetchMovieTrailer`. -/
def fetchMovieTrailerURL (movieId : String) : String :=
  "https://api.themoviedb.org/3/movie/" ++ movieId ++ "/videos"

/-- Body of the `try` block of `fetchMovieReviews`. -/
def tryFetchMovieReviews (u : UpstreamOutcome TMDBReviewResponse) :
    Except FetchError (List Review) :=
  match u with
  | .exn => .error .networkError
  | .response ok body =>
    if !ok then .error (.statusError "Failed to fetch movie reviews")
    else
      match body with
      | none => .error .parseError
      | some data => .ok (data.results.map reviewToLocal)

/-- `fetchMovieReviews`: on any thrown error, logs and returns `[]`. -/
def fetchMovieReviews (u : UpstreamOutcome TMDBReviewResponse) : List Review :=
  match tryFetchMovieReviews u with
  | .ok v => v
  | .error _ => []

/-- Request URL of `fetchMovieReviews`. -/
def fetchMovieReviewsURL (movieId : String) : String :=
  "https://api.themoviedb.org/3/movie/" ++ movieId ++ "/reviews"

/-- Body of the `try` block of `searchMovies`. -/
def trySearchMovies (u : UpstreamOutcome TMDBResponse) :
    Except FetchError (List Movie) :=
  match u with
  | .exn => .error .networkError
  | .response ok body =>
    if !ok then .error (.statusError "영화 검색에 실패했습니다.")
    else
      match body with
      | none => .error .parseError
      | some data => .ok (data.results.map movieToLocal)

/-- `searchMovies`: on any thrown error, logs and returns `[]`. -/
def searchMovies (u : UpstreamOutcome TMDBResponse) : List Movie :=
  match trySearchMovies u with
  | .ok v => v
  | .error _ => []

/-- Request URL of `searchMovies`: the query is passed through
`encodeURIComponent` and a fixed `language=en-US` parameter is
appended. -/
def searchMoviesURL (query : String) : String :=
  "https://api.themoviedb.org/3/search/movie?query=" ++
    encodeURIComponent query ++ "&language=en-US"

/-! ### Helper lemmas -/

/-- Every character produced by `digitChar` is a decimal digit
(codepoint between 48 and 57). -/
lemma digitChar_digit (d : Nat) :
    48 ≤ (digitChar d).toNat ∧ (digitChar d).toNat ≤ 57 := by
  have h : d % 10 < 10 := by omega
  unfold digitChar
  generalize hk : d % 10 = k
  rw [hk] at h
  interval_cases k <;> decide

/-- The accumulator loop only ever adds decimal digits. -/
lemma natToCharsAux_digits (fuel : Nat) :
    ∀ (n : Nat) (acc : List Char),
      (∀ c ∈ acc, 48 ≤ c.toNat ∧ c.toNat ≤ 57) →
      ∀ c ∈ natToCharsAux fuel n acc, 48 ≤ c.toNat ∧ c.toNat ≤ 57 := by
  induction fuel with
  | zero => intro n acc hacc c hc; exact hacc c hc
  | succ fuel ih =>
    intro n acc hacc c hc
    unfold natToCharsAux at hc
    by_cases h : n < 10
    · rw [if_pos h] at hc
      rcases List.mem_cons.mp hc with rfl | hc
      · exact digitChar_digit n
      · exact hacc c hc
    · rw [if_neg h] at hc
      refine ih (n / 10) _ ?_ c hc
      intro x hx
      rcases List.mem_cons.mp hx with rfl | hx
      · exact digitChar_digit _
      · exact hacc x hx

/-- Every character of the decimal rendering of a natural number is a
decimal digit. -/
lemma jsNumberToString_digits (n : Nat) :
    ∀ c ∈ (jsNumberToString n).data, 48 ≤ c.toNat ∧ c.toNat ≤ 57 := by
  intro c hc
  exact natToCharsAux_digits (n + 1) n [] (by intro x hx; cases hx) c hc

/-- Hexadecimal digit characters are never `&`, `=` or a space. -/
lemma hexDigitChar_safe (m : Nat) (h : m < 16) :
    hexDigitChar m ≠ '&' ∧ hexDigitChar m ≠ '=' ∧ hexDigitChar m ≠ ' ' := by
  interval_cases m <;> decide

/-- No character emitted for a single encoded character is `&`, `=` or a
space. -/
lemma encodeChar_safe (c x : Char) (hx : x ∈ encodeChar c) :
    x ≠ '&' ∧ x ≠ '=' ∧ x ≠ ' ' := by
  unfold encodeChar at hx
  by_cases h : isURIUnescaped c = true
  · rw [if_pos h] at hx
    rcases List.mem_cons.mp hx with rfl | hx
    · refine ⟨?_, ?_, ?_⟩ <;> intro hq <;> rw [hq] at h <;> exact absurd h (by decide)
    · cases hx
  · rw [if_neg h] at hx
    generalize String.utf8EncodeChar c = bs at hx
    induction bs with
    | nil => cases hx
    | cons b bs ih =>
      rw [List.foldr_cons] at hx
      rcases List.mem_append.mp hx with hx | hx
      · unfold percentEncodeByte at hx
        rcases List.mem_cons.mp hx with rfl | hx
        · exact ⟨by decide, by decide, by decide⟩
        · rcases List.mem_cons.mp hx with rfl | hx
          · exact hexDigitChar_safe _ (by omega)
          · rcases List.mem_cons.mp hx with rfl | hx
            · exact hexDigitChar_safe _ (by omega)
            · cases hx
      · exact ih hx

/-- No character of an `encodeURIComponent`-encoded string is `&`, `=`
or a space. -/
lemma encodeURIComponent_safe (s : String) (x : Char)
    (hx : x ∈ (encodeURIComponent s).data) : x ≠ '&' ∧ x ≠ '=' ∧ x ≠ ' ' := by
  have hx' : x ∈ s.data.foldr (fun c acc => encodeChar c ++ acc) [] := hx
  clear hx
  generalize s.data = l at hx'
  induction l with
  | nil => cases hx'
  | cons c cs ih =>
    rw [List.foldr_cons] at hx'
    rcases List.mem_append.mp hx' with hx' | hx'
    · exact encodeChar_safe c x hx'
    · exact ih hx'

/-- On any failing upstream interaction, the `try` block of
`fetchTrendingMovies` throws. -/
lemma tryFetchTrendingMovies_isError (u : UpstreamOutcome TMDBResponse)
    (h : upstreamFails u = true) : ∃ e, tryFetchTrendingMovies u = .error e := by
  rcases u with _ | ⟨ok, body⟩
  · exact ⟨.networkError, rfl⟩
  · cases ok
    · exact ⟨.statusError _, rfl⟩
    · cases body
      · exact ⟨.parseError, rfl⟩
      · exact absurd h (by simp [upstreamFails])

/-- On any failing upstream interaction, the `try` block of
`fetchMoviesRecommendation` throws. -/
lemma tryFetchMoviesRecommendation_isError (u : UpstreamOutcome TMDBResponse)
    (h : upstreamFails u = true) : ∃ e, tryFetchMoviesRecommendation u = .error e := by
  rcases u with _ | ⟨ok, body⟩
  · exact ⟨.networkError, rfl⟩
  · cases ok
    · exact ⟨.statusError _, rfl⟩
    · cases body
      · exact ⟨.parseError, rfl⟩
      · exact absurd h (by simp [upstreamFails])

/-- On any failing upstream interaction, the `try` block of
`fetchMovieDetail` throws. -/
lemma tryFetchMovieDetail_isError (u : UpstreamOutcome TMDBMovieDetail)
    (h : upstreamFails u = true) : ∃ e, tryFetchMovieDetail u = .error e := by
  rcases u with _ | ⟨ok, body⟩
  · exact ⟨.networkError, rfl⟩
  · cases ok
    · exact ⟨.statusError _, rfl⟩
    · cases body
      · exact ⟨.parseError, rfl⟩
      · exact absurd h (by simp [upstreamFails])

/-- On any failing upstream interaction, the `try` block of
`fetchMovieCredits` throws. -/
lemma tryFetchMovieCredits_isError (u : UpstreamOutcome TMDBMovieCast)
    (h : upstreamFails u = true) : ∃ e, tryFetchMovieCredits u = .error e := by
  rcases u with _ | ⟨ok, body⟩
  · exact ⟨.networkError, rfl⟩
  · cases ok
    · exact ⟨.statusError _, rfl⟩
    · cases body
      · exact ⟨.parseError, rfl⟩
      · exact absurd h (by simp [upstreamFails])

/-- On any failing upstream interaction, the `try` block of
`fetchMovieTrailer` throws. -/
lemma tryFetchMovieTrailer_isError (u : UpstreamOutcome TMDBMovieTrailer)
    (h : upstreamFails u = true) : ∃ e, tryFetchMovieTrailer u = .error e := by
  rcases u with _ | ⟨ok, body⟩
  · exact ⟨.networkError, rfl⟩
  · cases ok
    · exact ⟨.statusError _, rfl⟩
    · cases body
      · exact ⟨.parseError, rfl⟩
      · exact absurd h (by simp [upstreamFails])

/-- On any failing upstream interaction, the `try` block of
`fetchMovieReviews` throws. -/
lemma tryFetchMovieReviews_isError (u : UpstreamOutcome TMDBReviewResponse)
    (h : upstreamFails u = true) : ∃ e, tryFetchMovieReviews u = .error e := by
  rcases u with _ | ⟨ok, body⟩
  · exact ⟨.networkError, rfl⟩
  · cases ok
    · exact ⟨.statusError _, rfl⟩
    · cases body
      · exact ⟨.parseError, rfl⟩
      · exact absurd h (by simp [upstreamFails])

/-- On any failing upstream interaction, the `try` block of
`searchMovies` throws. -/
lemma trySearchMovies_isError (u : UpstreamOutcome TMDBResponse)
    (h : upstreamFails u = true) : ∃ e, trySearchMovies u = .error e := by
  rcases u with _ | ⟨ok, body⟩
  · exact ⟨.networkError, rfl⟩
  · cases ok
    · exact ⟨.statusError _, rfl⟩
    · cases body
      · exact ⟨.parseError, rfl⟩
      · exact absurd h (by simp [upstreamFails])

/-! ### Claim theorems -/

/-- C2: for every operation except `fetchMovieDetail`, and for every
failure (fetch exception, non-success HTTP status, or a parse/mapping
exception), the operation returns its fallback value — the empty list
for trending, recommendations, credits, reviews and search, and `null`
for the trailer.  The operations are total functions into their plain
output types, so no exception escapes to the caller. -/
theorem fallback_ops_return_fallback_on_failure
    (u1 u2 u3 : UpstreamOutcome TMDBResponse) (u4 : UpstreamOutcome TMDBMovieCast)
    (u5 : UpstreamOutcome TMDBReviewResponse) (u6 : UpstreamOutcome TMDBMovieTrailer)
    (h1 : upstreamFails u1 = true) (h2 : upstreamFails u2 = true)
    (h3 : upstreamFails u3 = true) (h4 : upstreamFails u4 = true)
    (h5 : upstreamFails u5 = true) (h6 : upstreamFails u6 = true) :
    fetchTrendingMovies u1 = [] ∧ fetchMoviesRecommendation u2 = [] ∧
    searchMovies u3 = [] ∧ fetchMovieCredits u4 = [] ∧
    fetchMovieReviews u5 = [] ∧ fetchMovieTrailer u6 = none := by
  obtain ⟨e1, he1⟩ := tryFetchTrendingMovies_isError u1 h1
  obtain ⟨e2, he2⟩ := tryFetchMoviesRecommendation_isError u2 h2
  obtain ⟨e3, he3⟩ := trySearchMovies_isError u3 h3
  obtain ⟨e4, he4⟩ := tryFetchMovieCredits_isError u4 h4
  obtain ⟨e5, he5⟩ := tryFetchMovieReviews_isError u5 h5
  obtain ⟨e6, he6⟩ := tryFetchMovieTrailer_isError u6 h6
  refine ⟨?_, ?_, ?_, ?_, ?_, ?_⟩
  · unfold fetchTrendingMovies; rw [he1]
  · unfold fetchMoviesRecommendation; rw [he2]
  · unfold searchMovies; rw [he3]
  · unfold fetchMovieCredits; rw [he4]
  · unfold fetchMovieReviews; rw [he5]
  · unfold fetchMovieTrailer; rw [he6]

/-- Witness for C2 at concrete failing interactions: a fetch exception,
a non-success status, and a successful status with a malformed body. -/
theorem fallback_ops_return_fallback_on_failure_witness :
    fetchTrendingMovies .exn = [] ∧
    fetchMoviesRecommendation (.response false none) = [] ∧
    searchMovies (.response true none) = [] ∧ fetchMovieCredits .exn = [] ∧
    fetchMovieReviews (.response false none) = [] ∧ fetchMovieTrailer .exn = none :=
  fallback_ops_return_fallback_on_failure .exn (.response false none)
    (.response true none) .exn (.response false none) .exn
    rfl rfl rfl rfl rfl rfl

/-- C3: on any failing upstream interaction (fetch exception,
non-success status, or parse failure), `fetchMovieDetail` propagates the
exception to its caller — its `catch` clause rethrows the same error, so
its result equals its `try` block's result — and no `MovieDetail` value
is produced.  It is the only operation whose result type still carries
the error: the other six (see `fallback_ops_return_fallback_on_failure`)
are total functions into plain list/option output types. -/
theorem movie_detail_rethrows_on_failure (u : UpstreamOutcome TMDBMovieDetail)
    (h : upstreamFails u = true) :
    (∃ e, fetchMovieDetail u = .error e) ∧
    fetchMovieDetail u = tryFetchMovieDetail u ∧
    ∀ d : MovieDetail, fetchMovieDetail u ≠ .ok d := by
  obtain ⟨e, he⟩ := tryFetchMovieDetail_isError u h
  have hid : fetchMovieDetail u = tryFetchMovieDetail u := by
    unfold fetchMovieDetail
    cases tryFetchMovieDetail u <;> rfl
  refine ⟨⟨e, ?_⟩, hid, ?_⟩
  · rw [hid, he]
  · intro d hd
    rw [hid, he] at hd
    cases hd

/-- Witness for C3 at two concrete failing interactions: a fetch
exception and a non-success HTTP status. -/
theorem movie_detail_rethrows_on_failure_witness :
    ((∃ e, fetchMovieDetail .exn = .error e) ∧
      fetchMovieDetail (.exn : UpstreamOutcome TMDBMovieDetail) = tryFetchMovieDetail .exn ∧
      ∀ d : MovieDetail, fetchMovieDetail .exn ≠ .ok d) ∧
    ((∃ e, fetchMovieDetail (.response false none) = .error e) ∧
      fetchMovieDetail (.response false none) = tryFetchMovieDetail (.response false none) ∧
      ∀ d : MovieDetail, fetchMovieDetail (.response false none) ≠ .ok d) :=
  ⟨movie_detail_rethrows_on_failure .exn rfl,
   movie_detail_rethrows_on_failure (.response false none) rfl⟩

/-- C1: for every list-returning operation (trending, recommendations,
credits, reviews, search), a successful upstream response whose
results/cast list has N items yields an output list of exactly N items,
the i-th output item being the field-by-field mapping of the i-th
upstream item, in the order received. -/
theorem list_ops_map_elementwise (dm dr ds : TMDBResponse) (dc : TMDBMovieCast)
    (dv : TMDBReviewResponse) :
    (fetchTrendingMovies (.response true (some dm)) = dm.results.map movieToLocal ∧
      (fetchTrendingMovies (.response true (some dm))).length = dm.results.length ∧
      ∀ i : Nat, (fetchTrendingMovies (.response true (some dm)))[i]? =
        (dm.results[i]?).map movieToLocal) ∧
    (fetchMoviesRecommendation (.response true (some dr)) = dr.results.map movieToLocal ∧
      (fetchMoviesRecommendation (.response true (some dr))).length = dr.results.length ∧
      ∀ i : Nat, (fetchMoviesRecommendation (.response true (some dr)))[i]? =
        (dr.results[i]?).map movieToLocal) ∧
    (fetchMovieCredits (.response true (some dc)) = dc.cast.map castToLocal ∧
      (fetchMovieCredits (.response true (some dc))).length = dc.cast.length ∧
      ∀ i : Nat, (fetchMovieCredits (.response true (some dc)))[i]? =
        (dc.cast[i]?).map castToLocal) ∧
    (fetchMovieReviews (.response true (some dv)) = dv.results.map reviewToLocal ∧
      (fetchMovieReviews (.response true (some dv))).length = dv.results.length ∧
      ∀ i : Nat, (fetchMovieReviews (.response true (some dv)))[i]? =
        (dv.results[i]?).map reviewToLocal) ∧
    (searchMovies (.response true (some ds)) = ds.results.map movieToLocal ∧
      (searchMovies (.response true (some ds))).length = ds.results.length ∧
      ∀ i : Nat, (searchMovies (.response true (some ds)))[i]? =
        (ds.results[i]?).map movieToLocal) := by
  refine ⟨⟨rfl, ?_, fun i => ?_⟩, ⟨rfl, ?_, fun i => ?_⟩, ⟨rfl, ?_, fun i => ?_⟩,
    ⟨rfl, ?_, fun i => ?_⟩, ⟨rfl, ?_, fun i => ?_⟩⟩ <;>
  simp [fetchTrendingMovies, tryFetchTrendingMovies, fetchMoviesRecommendation,
    tryFetchMoviesRecommendation, fetchMovieCredits, tryFetchMovieCredits,
    fetchMovieReviews, tryFetchMovieReviews, searchMovies, trySearchMovies,
    List.getElem?_map]

/-- Witness for C1 at a concrete two-element trending response. -/
theorem list_ops_map_elementwise_witness :
    (fetchTrendingMovies (.response true
        (some ⟨[⟨10, "A", "/a.jpg", 7⟩, ⟨11, "B", "/b.jpg", 8⟩]⟩))).length = 2 ∧
    (fetchTrendingMovies (.response true
        (some ⟨[⟨10, "A", "/a.jpg", 7⟩, ⟨11, "B", "/b.jpg", 8⟩]⟩)))[1]? =
      some (movieToLocal ⟨11, "B", "/b.jpg", 8⟩) :=
  ⟨((list_ops_map_elementwise ⟨[⟨10, "A", "/a.jpg", 7⟩, ⟨11, "B", "/b.jpg", 8⟩]⟩
        ⟨[]⟩ ⟨[]⟩ ⟨[]⟩ ⟨[]⟩).1.2.1).trans (by rfl),
   ((list_ops_map_elementwise ⟨[⟨10, "A", "/a.jpg", 7⟩, ⟨11, "B", "/b.jpg", 8⟩]⟩
        ⟨[]⟩ ⟨[]⟩ ⟨[]⟩ ⟨[]⟩).1.2.2 1).trans (by rfl)⟩

/-- C4: on a successful upstream response, `fetchMovieTrailer` returns
the first element of the upstream `results` list (its key and site) when
the list is non-empty, ignoring all subsequent elements, and `null` when
the list is empty. -/
theorem trailer_first_or_null (d : TMDBMovieTrailer) :
    fetchMovieTrailer (.response true (some d)) = d.results.head? ∧
    (d.results = [] → fetchMovieTrailer (.response true (some d)) = none) ∧
    ∀ e rest, d.results = e :: rest →
      fetchMovieTrailer (.response true (some d)) = some e := by
  have h0 : fetchMovieTrailer (.response true (some d)) = d.results.head? := rfl
  refine ⟨h0, fun h => ?_, fun e rest h => ?_⟩
  · rw [h0, h]; rfl
  · rw [h0, h]; rfl

/-- Witness for C4: a two-element video list yields exactly the first
entry, and the empty list yields `null`. -/
theorem trailer_first_or_null_witness :
    fetchMovieTrailer (.response true
        (some ⟨[⟨"k1", "YouTube"⟩, ⟨"k2", "Vimeo"⟩]⟩)) = some ⟨"k1", "YouTube"⟩ ∧
    fetchMovieTrailer (.response true (some (⟨[]⟩ : TMDBMovieTrailer))) = none :=
  ⟨(trailer_first_or_null ⟨[⟨"k1", "YouTube"⟩, ⟨"k2", "Vimeo"⟩]⟩).2.2
      ⟨"k1", "YouTube"⟩ [⟨"k2", "Vimeo"⟩] rfl,
   (trailer_first_or_null ⟨[]⟩).2.1 rfl⟩

/-- C5: for every upstream review mapped by `fetchMovieReviews`: when
the review lacks an `author_details` object, the output has
`rating = null` and `avatar_path = null`; when `author_details` is
present its rating is passed through, so a present rating `q` (e.g. 7)
yields output rating `q`.  On a successful response the operation maps
every review this way. -/
theorem review_optional_fields (r : TMDBReview) (d : AuthorDetails) (q : Rat)
    (resp : TMDBReviewResponse) :
    (r.author_details = none →
      (reviewToLocal r).rating = none ∧ (reviewToLocal r).avatar_path = none) ∧
    (r.author_details = some d →
      (reviewToLocal r).rating = d.rating ∧
      (reviewToLocal r).avatar_path = d.avatar_path) ∧
    (r.author_details = some d → d.rating = some q →
      (reviewToLocal r).rating = some q) ∧
    fetchMovieReviews (.response true (some resp)) = resp.results.map reviewToLocal := by
  refine ⟨fun h => ?_, fun h => ?_, fun h hq => ?_, rfl⟩
  · simp [reviewToLocal, h]
  · simp [reviewToLocal, h]
  · simp [reviewToLocal, h, hq]

/-- Witness for C5: a review with no `author_details` maps to null
rating and avatar, and one with rating 7 maps to rating 7. -/
theorem review_optional_fields_witness :
    ((reviewToLocal ⟨"r1", "an", "c", "t", "u", none⟩).rating = none ∧
      (reviewToLocal ⟨"r1", "an", "c", "t", "u", none⟩).avatar_path = none) ∧
    (reviewToLocal ⟨"r2", "an", "c", "t", "u", some ⟨some 7, none⟩⟩).rating = some 7 :=
  ⟨(review_optional_fields ⟨"r1", "an", "c", "t", "u", none⟩ ⟨none, none⟩ 7 ⟨[]⟩).1 rfl,
   (review_optional_fields ⟨"r2", "an", "c", "t", "u", some ⟨some 7, none⟩⟩
      ⟨some 7, none⟩ 7 ⟨[]⟩).2.2.1 rfl rfl⟩

/-- C6: every produced movie summary and movie detail has an image field
equal to the fixed CDN base "https://image.tmdb.org/t/p/w500"
concatenated verbatim with the upstream `poster_path` fragment, with no
validation or suppression — in particular an empty fragment yields the
bare base URL. -/
theorem image_is_cdn_concat (m : TMDBMovie) (d : TMDBMovieDetail) :
    (movieToLocal m).image = "https://image.tmdb.org/t/p/w500" ++ m.poster_path ∧
    (movieDetailToLocal d).image = "https://image.tmdb.org/t/p/w500" ++ d.poster_path ∧
    (movieToLocal { m with poster_path := "" }).image =
      "https://image.tmdb.org/t/p/w500" := by
  refine ⟨rfl, rfl, ?_⟩
  show "https://image.tmdb.org/t/p/w500" ++ "" = "https://image.tmdb.org/t/p/w500"
  simp

/-- Witness for C6 at concrete inputs, one with an empty poster
fragment. -/
theorem image_is_cdn_concat_witness :
    (movieToLocal ⟨1, "T", "", 5⟩).image = "https://image.tmdb.org/t/p/w500" ∧
    (movieDetailToLocal ⟨1, "T", "/x.jpg", 5, "o", "2024-01-01", 100, [], []⟩).image =
      "https://image.tmdb.org/t/p/w500" ++ "/x.jpg" :=
  ⟨(image_is_cdn_concat ⟨1, "T", "", 5⟩
      ⟨1, "T", "/x.jpg", 5, "o", "2024-01-01", 100, [], []⟩).2.2,
   (image_is_cdn_concat ⟨1, "T", "", 5⟩
      ⟨1, "T", "/x.jpg", 5, "o", "2024-01-01", 100, [], []⟩).2.1⟩

/-- C7: a malformed JSON body (modelled as a body that fails to parse)
produces the same outcome as a non-success HTTP status for every
operation: the fallback value for the six fallback-style operations, and
a rethrown error for `fetchMovieDetail`. -/
theorem malformed_body_same_as_bad_status :
    (∀ b, fetchTrendingMovies (.response true none) = [] ∧
      fetchTrendingMovies (.response false b) = []) ∧
    (∀ b, fetchMoviesRecommendation (.response true none) = [] ∧
      fetchMoviesRecommendation (.response false b) = []) ∧
    (∀ b, fetchMovieCredits (.response true none) = [] ∧
      fetchMovieCredits (.response false b) = []) ∧
    (∀ b, fetchMovieReviews (.response true none) = [] ∧
      fetchMovieReviews (.response false b) = []) ∧
    (∀ b, searchMovies (.response true none) = [] ∧
      searchMovies (.response false b) = []) ∧
    (∀ b, fetchMovieTrailer (.response true none) = none ∧
      fetchMovieTrailer (.response false b) = none) ∧
    ((∃ e, fetchMovieDetail (.response true none) = .error e) ∧
      ∀ b, ∃ e, fetchMovieDetail (.response false b) = .error e) :=
  ⟨fun _ => ⟨rfl, rfl⟩, fun _ => ⟨rfl, rfl⟩, fun _ => ⟨rfl, rfl⟩,
   fun _ => ⟨rfl, rfl⟩, fun _ => ⟨rfl, rfl⟩, fun _ => ⟨rfl, rfl⟩,
   ⟨.parseError, rfl⟩, fun _ => ⟨.statusError "Failed to fetch movie detail", rfl⟩⟩

/-- C8: the output rating of every produced movie summary and movie
detail equals the upstream `vote_average` value unchanged — no rescaling
of the 0–10 scale. -/
theorem rating_passthrough (m : TMDBMovie) (d : TMDBMovieDetail) :
    (movieToLocal m).rating = m.vote_average ∧
    (movieDetailToLocal d).rating = d.vote_average :=
  ⟨rfl, rfl⟩

/-- Witness for C8 at concrete inputs. -/
theorem rating_passthrough_witness :
    (movieToLocal ⟨1, "T", "/p.jpg", 7⟩).rating = 7 ∧
    (movieDetailToLocal ⟨1, "T", "/p.jpg", 5, "o", "2024-01-01", 100, [], []⟩).rating = 5 :=
  ⟨(rating_passthrough ⟨1, "T", "/p.jpg", 7⟩
      ⟨1, "T", "/p.jpg", 5, "o", "2024-01-01", 100, [], []⟩).1,
   (rating_passthrough ⟨1, "T", "/p.jpg", 7⟩
      ⟨1, "T", "/p.jpg", 5, "o", "2024-01-01", 100, [], []⟩).2⟩

/-- Concrete upstream credits entry.  The upstream element type declared
in the source (`TMDBMovieCast.cast : Cast[]`, with `Cast.id : string`)
makes the id a string, so a non-numeral id such as "abc" is a legal
upstream value. -/
def sampleCastEntry : Cast :=
  { id := "abc", profile_path := "/p.jpg", name := "Alice", character := "Herself",
    known_for_department := "Acting" }

/-- C9 counterexample: it is not the case that every Cast entry produced
by `fetchMovieCredits` has an id that is the decimal-string rendering of
an upstream numeric id.  The source declares the upstream cast element
type with `id : string` and `cast.id.toString()` is the identity on a
string, so the upstream id "abc" is passed through unchanged — and "abc"
is not the decimal rendering of any number. -/
theorem cast_id_not_numeric_rendering :
    ¬ ∀ c ∈ fetchMovieCredits (.response true (some ⟨[sampleCastEntry]⟩)),
        ∃ n : Nat, c.id = jsNumberToString n := by
  intro h
  obtain ⟨n, hn⟩ := h (castToLocal sampleCastEntry) (by decide)
  have hb : 'b' ∈ (jsNumberToString n).data := by
    rw [← hn]; decide
  exact absurd (jsNumberToString_digits n 'b' hb) (by decide)

/-- C9 amended: the Movie and MovieDetail id fields are the decimal
renderings (`toString()`) of the upstream numeric ids; the Cast id,
whose upstream element type declares `id : string`, is passed through by
`toString()` unchanged, and Review ids are passed through unchanged. -/
theorem id_mapping_amended (m : TMDBMovie) (d : TMDBMovieDetail) (c : Cast)
    (r : TMDBReview) :
    (movieToLocal m).id = jsNumberToString m.id ∧
    (movieDetailToLocal d).id = jsNumberToString d.id ∧
    (castToLocal c).id = c.id ∧
    (reviewToLocal r).id = r.id :=
  ⟨rfl, rfl, rfl, rfl⟩

/-- Witness for the amended C9 at concrete inputs, showing the decimal
rendering concretely. -/
theorem id_mapping_amended_witness :
    (movieToLocal ⟨120, "T", "/p.jpg", 7⟩).id = jsNumberToString 120 ∧
    jsNumberToString 120 = "120" ∧
    (castToLocal sampleCastEntry).id = "abc" ∧
    (reviewToLocal ⟨"rid", "an", "c", "t", "u", none⟩).id = "rid" :=
  ⟨(id_mapping_amended ⟨120, "T", "/p.jpg", 7⟩
      ⟨1, "T", "/p.jpg", 5, "o", "2024-01-01", 100, [], []⟩ sampleCastEntry
      ⟨"rid", "an", "c", "t", "u", none⟩).1,
   by decide,
   (id_mapping_amended ⟨120, "T", "/p.jpg", 7⟩
      ⟨1, "T", "/p.jpg", 5, "o", "2024-01-01", 100, [], []⟩ sampleCastEntry
      ⟨"rid", "an", "c", "t", "u", none⟩).2.2.1,
   (id_mapping_amended ⟨120, "T", "/p.jpg", 7⟩
      ⟨1, "T", "/p.jpg", 5, "o", "2024-01-01", 100, [], []⟩ sampleCastEntry
      ⟨"rid", "an", "c", "t", "u", none⟩).2.2.2⟩

/-- C10: the search request URL is built from the fixed endpoint, the
query passed through `encodeURIComponent`, and a fixed `language=en-US`
parameter; no character of the encoded query is `&`, `=` or a space, so
the query cannot alter the URL's other query parameters. -/
theorem search_url_encodes_query (q : String) :
    searchMoviesURL q =
      "https://api.themoviedb.org/3/search/movie?query=" ++
        encodeURIComponent q ++ "&language=en-US" ∧
    ∀ c ∈ (encodeURIComponent q).data, c ≠ '&' ∧ c ≠ '=' ∧ c ≠ ' ' :=
  ⟨rfl, fun c hc => encodeURIComponent_safe q c hc⟩

/-- Witness for C10 at the concrete query "a b&c=d", whose encoding
contains `%` (from percent-escapes) but none of the separator
characters. -/
theorem search_url_encodes_query_witness :
    searchMoviesURL "a b&c=d" =
      "https://api.themoviedb.org/3/search/movie?query=" ++
        encodeURIComponent "a b&c=d" ++ "&language=en-US" ∧
    ('%' ≠ '&' ∧ '%' ≠ '=' ∧ '%' ≠ ' ') :=
  ⟨(search_url_encodes_query "a b&c=d").1,
   (search_url_encodes_query "a b&c=d").2 '%' (by decide)⟩
